import Mathlib

/-!
# avdecc-lib: ADP packet accessors, clock domain descriptor, CLI arguments

A shallow embedding of

* `controller/lib/src/adp.h` (class `avdecc_lib::adp`),
* `controller/lib/include/clock_domain_descriptor.h`
  (interface `avdecc_lib::clock_domain_descriptor`),
* `controller/app/cmdline/src/cli_argument.h` (classes `cli_argument*`).

Unsigned C integers are natural numbers; single bytes are `Fin 256`.
The accessors of `class adp` are not declared `const`: each takes the object state and
returns its result paired with the object state after the call. Member functions
declared `const` are functions of the object state alone.
-/

namespace avdecc_lib

/-! ## Types of `jdksavdecc_adp.h` used by `adp.h` -/

/-- C type `uint8_t`. -/
abbrev uint8_t := Fin 256

/-- Modelled from the spec: `struct jdksavdecc_eui48` is declared in the jdksavdecc
headers, which are not part of the sources; a 48-bit hardware address held as six bytes. -/
structure jdksavdecc_eui48 where
  value : Fin 6 → uint8_t

/-- Modelled from the spec: `struct jdksavdecc_eui64` is declared in the jdksavdecc
headers, which are not part of the sources; a 64-bit identifier held as eight bytes. -/
structure jdksavdecc_eui64 where
  value : Fin 8 → uint8_t

/-- Modelled from the spec: `struct jdksavdecc_frame` is declared in the jdksavdecc
headers, which are not part of the sources; the Ethernet frame fields that `adp.h`
reads (addresses, ethertype) together with the payload and its length. -/
structure jdksavdecc_frame where
  dest_address : jdksavdecc_eui48
  src_address : jdksavdecc_eui48
  ethertype : Nat
  length : Nat
  payload : List uint8_t

/-- Modelled from the spec: `struct jdksavdecc_adpdu_common_control_header` is declared
in the jdksavdecc headers, which are not part of the sources; the message type, the
valid time, the protocol header size field and the entity id that `adp.h` reads. -/
structure jdksavdecc_adpdu_common_control_header where
  message_type : Nat
  valid_time : Nat
  control_data_length : Nat
  entity_id : jdksavdecc_eui64

/-- Modelled from the spec: `struct jdksavdecc_adpdu` is declared in the jdksavdecc
headers, which are not part of the sources; one field per member that `adp.h` reads,
in the order of the accessors. -/
structure jdksavdecc_adpdu where
  header : jdksavdecc_adpdu_common_control_header
  entity_model_id : jdksavdecc_eui64
  entity_capabilities : Nat
  talker_stream_sources : Nat
  talker_capabilities : Nat
  listener_stream_sinks : Nat
  listener_capabilities : Nat
  controller_capabilities : Nat
  available_index : Nat
  gptp_grandmaster_id : jdksavdecc_eui64
  gptp_domain_number : Nat
  reserved0 : Nat
  identify_control_index : Nat
  interface_index : Nat
  association_id : jdksavdecc_eui64
  reserved1 : Nat

/-- The bytes seen through a pointer to an EUI-64: offset `i` of the pointed-to object.
Offsets past the eight bytes of the object are outside it and read as zero here. -/
def jdksavdecc_eui64.mem (e : jdksavdecc_eui64) (i : Nat) : uint8_t :=
  if h : i < 8 then e.value ⟨i, h⟩ else 0

/-- Modelled from the spec: `jdksavdecc_uint64_get(base, pos)` is defined in the
jdksavdecc headers, which are not part of the sources. It reads the eight bytes at
`base + pos` as one 64-bit integer in network byte order: each byte is widened to
`uint64_t`, shifted to its place and the eight terms are added in `uint64_t`. -/
def jdksavdecc_uint64_get (base : Nat → uint8_t) (pos : Nat) : Nat :=
  ((((base pos).val <<< 56) % 2 ^ 64)
    + (((base (pos + 1)).val <<< 48) % 2 ^ 64)
    + (((base (pos + 2)).val <<< 40) % 2 ^ 64)
    + (((base (pos + 3)).val <<< 32) % 2 ^ 64)
    + (((base (pos + 4)).val <<< 24) % 2 ^ 64)
    + (((base (pos + 5)).val <<< 16) % 2 ^ 64)
    + (((base (pos + 6)).val <<< 8) % 2 ^ 64)
    + ((base (pos + 7)).val % 2 ^ 64)) % 2 ^ 64

/-! ## `class adp` (adp.h) -/

/-- Private state of `class adp`. The raw buffer `adp_frame` is held as the bytes it
points to. -/
structure adp where
  ether_frame : jdksavdecc_frame
  adpdu : jdksavdecc_adpdu
  adp_frame : List uint8_t
  frame_read_returned : Int
  adpdu_read_returned : Int

/-- Constant `adp::SRC_MAC_SIZE`. -/
def SRC_MAC_SIZE : Nat := 6

/-- Constant `adp::DEST_MAC_SIZE`. -/
def DEST_MAC_SIZE : Nat := 6

/-- Constant `adp::ETHER_PROTOCOL_SIZE`. -/
def ETHER_PROTOCOL_SIZE : Nat := 2

/-- Constant `adp::ETHER_HDR_SIZE`, the header size of the Ethernet frame. -/
def ETHER_HDR_SIZE : Nat := SRC_MAC_SIZE + DEST_MAC_SIZE + ETHER_PROTOCOL_SIZE

/-- Constant `adp::PROTOCOL_HDR_SIZE`, the protocol header size. -/
def PROTOCOL_HDR_SIZE : Nat := 4

namespace adp

/-- Get the Ethernet type of the ADP packet. -/
def get_ethernet_type (s : adp) : Nat × adp :=
  (s.ether_frame.ethertype, s)

/-- Get the source address of the ADP packet. -/
def get_src_addr (s : adp) : jdksavdecc_eui48 × adp :=
  (s.ether_frame.src_address, s)

/-- Get the destination of the ADP packet. -/
def get_dest_addr (s : adp) : jdksavdecc_eui48 × adp :=
  (s.ether_frame.dest_address, s)

/-- Get the header field of the ADP object. -/
def get_hdr (s : adp) : jdksavdecc_adpdu_common_control_header × adp :=
  (s.adpdu.header, s)

/-- Get the Entity GUID field of the ADP object. -/
def get_entity_entity_id (s : adp) : Nat × adp :=
  (jdksavdecc_uint64_get s.adpdu.header.entity_id.mem 0, s)

/-- Get the Entity model id field of the ADP object. -/
def get_entity_model_id (s : adp) : Nat × adp :=
  (jdksavdecc_uint64_get s.adpdu.entity_model_id.mem 0, s)

/-- Get the Entity capabilities field of the ADP object. -/
def get_entity_capabilities (s : adp) : Nat × adp :=
  (s.adpdu.entity_capabilities, s)

/-- Get the Talker stream sources field of the ADP object. -/
def get_talker_stream_sources (s : adp) : Nat × adp :=
  (s.adpdu.talker_stream_sources, s)

/-- Get the Talker capabilities field of the ADP object. -/
def get_talker_capabilities (s : adp) : Nat × adp :=
  (s.adpdu.talker_capabilities, s)

/-- Get the Listener stream sinks field of the ADP object. -/
def get_listener_stream_sinks (s : adp) : Nat × adp :=
  (s.adpdu.listener_stream_sinks, s)

/-- Get the Listener capabilities field of the ADP object. -/
def get_listener_capabilities (s : adp) : Nat × adp :=
  (s.adpdu.listener_capabilities, s)

/-- Get the Controller capabilities field of the ADP object. -/
def get_controller_capabilities (s : adp) : Nat × adp :=
  (s.adpdu.controller_capabilities, s)

/-- Get the available index field of the ADP object. -/
def get_available_index (s : adp) : Nat × adp :=
  (s.adpdu.available_index, s)

/-- Get the GPTP grandmaster id field of the ADP object. -/
def get_gptp_grandmaster_id (s : adp) : Nat × adp :=
  (jdksavdecc_uint64_get s.adpdu.gptp_grandmaster_id.mem 0, s)

/-- Get the GPTP domain number field of the ADP object. -/
def get_gptp_domain_number (s : adp) : Nat × adp :=
  (s.adpdu.gptp_domain_number, s)

/-- Get the reserved0 field of the ADP object. -/
def get_reserved0 (s : adp) : Nat × adp :=
  (s.adpdu.reserved0, s)

/-- Get the identify control index field of the ADP object. -/
def get_identify_control_index (s : adp) : Nat × adp :=
  (s.adpdu.identify_control_index, s)

/-- Get the interface index field of the ADP object. -/
def get_interface_index (s : adp) : Nat × adp :=
  (s.adpdu.interface_index, s)

/-- Get the association id field of the ADP object. -/
def get_association_id (s : adp) : Nat × adp :=
  (jdksavdecc_uint64_get s.adpdu.association_id.mem 0, s)

/-- Get the reserved1 field of the ADPDU object. -/
def get_reserved1 (s : adp) : Nat × adp :=
  (s.adpdu.reserved1, s)

end adp

/-- The public non-static member functions of `class adp` other than the constructor
and the destructor. -/
inductive adp_op where
  | get_ethernet_type
  | get_src_addr
  | get_dest_addr
  | get_hdr
  | get_entity_entity_id
  | get_entity_model_id
  | get_entity_capabilities
  | get_talker_stream_sources
  | get_talker_capabilities
  | get_listener_stream_sinks
  | get_listener_capabilities
  | get_controller_capabilities
  | get_available_index
  | get_gptp_grandmaster_id
  | get_gptp_domain_number
  | get_reserved0
  | get_identify_control_index
  | get_interface_index
  | get_association_id
  | get_reserved1

/-- The object state after calling member function `op` on an object in state `s`. -/
def adp_op.post (op : adp_op) (s : adp) : adp :=
  match op with
  | .get_ethernet_type => (adp.get_ethernet_type s).2
  | .get_src_addr => (adp.get_src_addr s).2
  | .get_dest_addr => (adp.get_dest_addr s).2
  | .get_hdr => (adp.get_hdr s).2
  | .get_entity_entity_id => (adp.get_entity_entity_id s).2
  | .get_entity_model_id => (adp.get_entity_model_id s).2
  | .get_entity_capabilities => (adp.get_entity_capabilities s).2
  | .get_talker_stream_sources => (adp.get_talker_stream_sources s).2
  | .get_talker_capabilities => (adp.get_talker_capabilities s).2
  | .get_listener_stream_sinks => (adp.get_listener_stream_sinks s).2
  | .get_listener_capabilities => (adp.get_listener_capabilities s).2
  | .get_controller_capabilities => (adp.get_controller_capabilities s).2
  | .get_available_index => (adp.get_available_index s).2
  | .get_gptp_grandmaster_id => (adp.get_gptp_grandmaster_id s).2
  | .get_gptp_domain_number => (adp.get_gptp_domain_number s).2
  | .get_reserved0 => (adp.get_reserved0 s).2
  | .get_identify_control_index => (adp.get_identify_control_index s).2
  | .get_interface_index => (adp.get_interface_index s).2
  | .get_association_id => (adp.get_association_id s).2
  | .get_reserved1 => (adp.get_reserved1 s).2

/-! ## Decoding a received frame (constructor of `class adp`) -/

/-- Format errors of the frame codec and of the PDU parser. -/
inductive FormatError where
  | TruncatedFrame
  | UnsupportedEthertype
  | MalformedPdu
deriving DecidableEq, Repr

/-- Byte `i` of a buffer; a position outside the buffer reads as zero. -/
def byte_at (buf : List uint8_t) (i : Nat) : uint8_t :=
  buf.getD i 0

/-- Modelled from the spec: `jdksavdecc_frame_read` is defined in the jdksavdecc
sources, which are not part of the sources. The canonical byte layout is destination
address, source address, ethertype, payload, the ethertype in network byte order. -/
def jdksavdecc_frame_read (buf : List uint8_t) : jdksavdecc_frame :=
  { dest_address := ⟨fun i => byte_at buf i.val⟩
    src_address := ⟨fun i => byte_at buf (DEST_MAC_SIZE + i.val)⟩
    ethertype := (byte_at buf (DEST_MAC_SIZE + SRC_MAC_SIZE)).val * 256
      + (byte_at buf (DEST_MAC_SIZE + SRC_MAC_SIZE + 1)).val
    length := buf.length - ETHER_HDR_SIZE
    payload := buf.drop ETHER_HDR_SIZE }

/-- Modelled from the spec: the body of the constructor `adp::adp(frame, frame_len)` is
in adp.cpp, which is not part of the sources. Decoding fails with `TruncatedFrame` if
the length is below the minimum header size and with `UnsupportedEthertype` if the
ethertype is not the expected protocol value; the payload is then handed to the PDU
parser, which may fail with a format error of its own. The expected ethertype and the
PDU parser (`parse_adpdu`) are parameters. On success the two status members hold the
offsets the two reads have reached. -/
def adp.new (avtp_ethertype : Nat)
    (parse_adpdu : jdksavdecc_frame → Except FormatError jdksavdecc_adpdu)
    (frame : List uint8_t) (frame_len : Nat) : Except FormatError adp :=
  if frame_len < ETHER_HDR_SIZE then
    .error .TruncatedFrame
  else
    let adp_frame := frame.take frame_len
    let ether_frame := jdksavdecc_frame_read adp_frame
    if ether_frame.ethertype ≠ avtp_ethertype then
      .error .UnsupportedEthertype
    else
      match parse_adpdu ether_frame with
      | .error e => .error e
      | .ok adpdu =>
        .ok { ether_frame := ether_frame
              adpdu := adpdu
              adp_frame := adp_frame
              frame_read_returned := ETHER_HDR_SIZE
              adpdu_read_returned := frame_len }

/-! ## `class clock_domain_descriptor` (clock_domain_descriptor.h) -/

/-- Errors of descriptor accessors. -/
inductive DescriptorError where
  | IndexOutOfRange
deriving DecidableEq, Repr

/-- Modelled from the spec: `clock_domain_descriptor` is an interface of pure virtual
functions; the implementing class is not part of the sources. The state behind the
interface: the descriptor index, the currently selected clock source, the list of valid
clock sources (at most 249 entries, as the header documents) and the two cached command
results. -/
structure clock_domain_descriptor where
  descriptor_index : Nat
  clock_source_index : Nat
  clock_sources : List Nat
  clock_sources_bound : clock_sources.length ≤ 249
  set_clock_source_cached : Nat
  get_clock_source_cached : Nat

namespace clock_domain_descriptor

/-- The descriptor index of the Clock Source descriptor describing the current Clock
Source for the Clock Domain. -/
def get_clock_source_index (d : clock_domain_descriptor) : Nat :=
  d.clock_source_index

/-- The number of clock source indexes in the clock sources field. -/
def get_clock_sources_count (d : clock_domain_descriptor) : Nat :=
  d.clock_sources.length

/-- Modelled from the spec: indexed enumeration of the valid clock sources, defined for
`0 ≤ index < count`, else `IndexOutOfRange`. -/
def get_clock_source_by_index (d : clock_domain_descriptor) (clk_src_index : Nat) :
    Except DescriptorError Nat :=
  if h : clk_src_index < d.get_clock_sources_count then
    .ok (d.clock_sources.get ⟨clk_src_index, h⟩)
  else
    .error .IndexOutOfRange

/-- The clock source index confirmed by the last SET_CLOCK_SOURCE response. -/
def set_clock_source_clock_source_index (d : clock_domain_descriptor) : Nat :=
  d.set_clock_source_cached

/-- The clock source index reported by the last GET_CLOCK_SOURCE response. -/
def get_clock_source_clock_source_index (d : clock_domain_descriptor) : Nat :=
  d.get_clock_source_cached

end clock_domain_descriptor

/-- Liveness state of a remote entity. -/
inductive entity_liveness where
  | UNKNOWN
  | AVAILABLE
  | DEPARTED
deriving DecidableEq, Repr

/-- Command types of the clock domain descriptor. -/
inductive command_type where
  | SET_CLOCK_SOURCE
  | GET_CLOCK_SOURCE
deriving DecidableEq, Repr

/-- A command handed to the network boundary for transmission. -/
structure command_frame where
  sequence_id : Nat
  cmd : command_type
  descriptor_index : Nat
  clock_source_index : Nat
deriving DecidableEq, Repr

/-- A pending command of the correlation engine. -/
structure pending_command where
  sequence_id : Nat
  notification_id : Nat
  cmd : command_type
  descriptor_index : Nat
  retry_count : Nat
deriving DecidableEq, Repr

/-- The state of the command correlation engine for the entity that owns a descriptor:
the liveness of the entity, the next sequence number, the pending commands and the
frames transmitted so far. -/
structure command_engine where
  liveness : entity_liveness
  next_sequence_id : Nat
  pending : List pending_command
  transmitted : List command_frame
deriving DecidableEq, Repr

/-- Immediate outcome of a send operation. -/
inductive send_status where
  | Accepted
  | InvalidClockSource
  | StateError
deriving DecidableEq, Repr

/-- Whether a command of type `cmd` for descriptor `idx` is pending. -/
def command_engine.is_pending (c : command_engine) (cmd : command_type) (idx : Nat) : Bool :=
  c.pending.any (fun p => decide (p.cmd = cmd) && decide (p.descriptor_index = idx))

/-- Accept a command: assign the next sequence number, record the pending command and
transmit the command frame. -/
def command_engine.enqueue (c : command_engine) (notification_id : Nat) (cmd : command_type)
    (idx : Nat) (value : Nat) : command_engine :=
  { liveness := c.liveness
    next_sequence_id := c.next_sequence_id + 1
    pending := c.pending ++ [{ sequence_id := c.next_sequence_id
                               notification_id := notification_id
                               cmd := cmd
                               descriptor_index := idx
                               retry_count := 0 }]
    transmitted := c.transmitted ++ [{ sequence_id := c.next_sequence_id
                                       cmd := cmd
                                       descriptor_index := idx
                                       clock_source_index := value }] }

/-- Modelled from the spec: `send_set_clock_source_cmd` is pure virtual in the header
and its implementation is not part of the sources. A source index not present in the
valid-sources list is rejected locally with `InvalidClockSource` before a command is
sent; the command is rejected with `StateError` if the entity is not `AVAILABLE` or if
the same command for this descriptor is already pending; otherwise it is enqueued and
the call returns at once. -/
def clock_domain_descriptor.send_set_clock_source_cmd (d : clock_domain_descriptor)
    (c : command_engine) (notification_id : Nat) (new_clk_src_index : Nat) :
    send_status × command_engine :=
  if ¬ new_clk_src_index ∈ d.clock_sources then
    (.InvalidClockSource, c)
  else if c.liveness ≠ .AVAILABLE then
    (.StateError, c)
  else if c.is_pending .SET_CLOCK_SOURCE d.descriptor_index then
    (.StateError, c)
  else
    (.Accepted, c.enqueue notification_id .SET_CLOCK_SOURCE d.descriptor_index new_clk_src_index)

/-- Modelled from the spec: `send_get_clock_source_cmd` is pure virtual in the header
and its implementation is not part of the sources. Rejected with `StateError` if the
entity is not `AVAILABLE` or the same command is already pending, else enqueued. -/
def clock_domain_descriptor.send_get_clock_source_cmd (d : clock_domain_descriptor)
    (c : command_engine) (notification_id : Nat) : send_status × command_engine :=
  if c.liveness ≠ .AVAILABLE then
    (.StateError, c)
  else if c.is_pending .GET_CLOCK_SOURCE d.descriptor_index then
    (.StateError, c)
  else
    (.Accepted, c.enqueue notification_id .GET_CLOCK_SOURCE d.descriptor_index 0)

end avdecc_lib

/-! ## `class cli_argument` and its subclasses (cli_argument.h) -/

/-- Protected state of `class cli_argument`: `m_match_min` is declared `bool`,
`m_match_max` is declared `int`. -/
structure cli_argument where
  m_is_valid : Bool
  m_match_min : Bool
  m_match_max : Int
  m_name : String
  m_help : String
  m_hint : String
deriving DecidableEq, Repr

/-- C++ conversion of an `int` to `bool`: zero is `false`, every other value `true`. -/
def int_to_bool (n : Int) : Bool :=
  decide (n ≠ 0)

/-- C++ promotion of a `bool` to `int`: `false` is 0 and `true` is 1. -/
def bool_to_int (b : Bool) : Int :=
  if b then 1 else 0

/-- Modelled from the spec: the body of the constructor
`cli_argument(name, help, hint, match_min, match_max)` is in cli_argument.cpp, which is
not part of the sources. Every member is set from the argument of the same name, the
`int` argument `match_min` being converted to the `bool` member `m_match_min`. -/
def cli_argument.new (name help hint : String) (match_min match_max : Int) : cli_argument :=
  { m_is_valid := false
    m_match_min := int_to_bool match_min
    m_match_max := match_max
    m_name := name
    m_help := help
    m_hint := hint }

/-- Modelled from the spec: the body of `bool get_match_min() const` is in
cli_argument.cpp, which is not part of the sources; it reports the member
`m_match_min`. -/
def cli_argument.get_match_min (a : cli_argument) : Bool :=
  a.m_match_min

/-- Modelled from the spec: the body of `int get_match_max() const` is in
cli_argument.cpp, which is not part of the sources; it reports the member
`m_match_max`. -/
def cli_argument.get_match_max (a : cli_argument) : Int :=
  a.m_match_max

/-- The arguments a subclass constructor receives once the defaults of the omitted
trailing arguments are filled in. -/
structure cli_argument_args where
  name : String
  help : String
  hint : String
  match_min : Int
  match_max : Int
deriving DecidableEq, Repr

/-- Declaration `cli_argument_int(name, help, hint="", match_min=1, match_max=1)`:
an omitted argument is `none` and takes its declared default. -/
def cli_argument_int.args (name help : String) (hint : Option String)
    (match_min match_max : Option Int) : cli_argument_args :=
  { name := name, help := help, hint := hint.getD "",
    match_min := match_min.getD 1, match_max := match_max.getD 1 }

/-- Declaration `cli_argument_end_station(name, help, hint="", match_min=1, match_max=1)`:
an omitted argument is `none` and takes its declared default. -/
def cli_argument_end_station.args (name help : String) (hint : Option String)
    (match_min match_max : Option Int) : cli_argument_args :=
  { name := name, help := help, hint := hint.getD "",
    match_min := match_min.getD 1, match_max := match_max.getD 1 }

/-- Declaration `cli_argument_string(name, help, hint="", match_min=1, match_max=1)`:
an omitted argument is `none` and takes its declared default. -/
def cli_argument_string.args (name help : String) (hint : Option String)
    (match_min match_max : Option Int) : cli_argument_args :=
  { name := name, help := help, hint := hint.getD "",
    match_min := match_min.getD 1, match_max := match_max.getD 1 }

/-- Class `cli_argument_int`: the base class state and the matched values. -/
structure cli_argument_int extends cli_argument where
  m_values : List Int

/-- Class `cli_argument_end_station`: the base class state and the matched values. -/
structure cli_argument_end_station extends cli_argument where
  m_values : List Nat

/-- Class `cli_argument_string`: the base class state and the matched values. -/
structure cli_argument_string extends cli_argument where
  m_values : List String

/-- Modelled from the spec: the constructor body is in cli_argument.cpp, which is not
part of the sources; the arguments are passed on to the base class constructor and no
value has matched yet. -/
def cli_argument_int.new (name help : String) (hint : Option String)
    (match_min match_max : Option Int) : cli_argument_int :=
  let a := cli_argument_int.args name help hint match_min match_max
  { tocli_argument := cli_argument.new a.name a.help a.hint a.match_min a.match_max
    m_values := [] }

/-- Modelled from the spec: the constructor body is in cli_argument.cpp, which is not
part of the sources; the arguments are passed on to the base class constructor and no
value has matched yet. -/
def cli_argument_end_station.new (name help : String) (hint : Option String)
    (match_min match_max : Option Int) : cli_argument_end_station :=
  let a := cli_argument_end_station.args name help hint match_min match_max
  { tocli_argument := cli_argument.new a.name a.help a.hint a.match_min a.match_max
    m_values := [] }

/-- Modelled from the spec: the constructor body is in cli_argument.cpp, which is not
part of the sources; the arguments are passed on to the base class constructor and no
value has matched yet. -/
def cli_argument_string.new (name help : String) (hint : Option String)
    (match_min match_max : Option Int) : cli_argument_string :=
  let a := cli_argument_string.args name help hint match_min match_max
  { tocli_argument := cli_argument.new a.name a.help a.hint a.match_min a.match_max
    m_values := [] }

/-! ## Example values -/

namespace avdecc_lib

/-- The clock domain of the example scenario: descriptor index 0, valid sources
`[0, 1, 2]`, current source 1. -/
def example_clock_domain : clock_domain_descriptor :=
  { descriptor_index := 0
    clock_source_index := 1
    clock_sources := [0, 1, 2]
    clock_sources_bound := by decide
    set_clock_source_cached := 1
    get_clock_source_cached := 1 }

/-- The command engine of an available entity with nothing pending and nothing sent. -/
def example_engine : command_engine :=
  { liveness := .AVAILABLE
    next_sequence_id := 0
    pending := []
    transmitted := [] }

/-- A buffer of thirteen bytes, one byte short of an Ethernet header. -/
def example_short_frame : List uint8_t :=
  [0x91, 0xe0, 0xf0, 0x01, 0x00, 0x00, 0x00, 0x22, 0x97, 0x00, 0x41, 0x2c, 0x22]

end avdecc_lib

/-! ## Theorems -/

namespace avdecc_lib

/-- Eight bytes shifted to their places and added in 64 bits give the big-endian sum:
nothing wraps around. -/
theorem be64_no_wrap (b0 b1 b2 b3 b4 b5 b6 b7 : Nat)
    (h0 : b0 < 256) (h1 : b1 < 256) (h2 : b2 < 256) (h3 : b3 < 256)
    (h4 : b4 < 256) (h5 : b5 < 256) (h6 : b6 < 256) (h7 : b7 < 256) :
    (((b0 <<< 56) % 2 ^ 64) + ((b1 <<< 48) % 2 ^ 64) + ((b2 <<< 40) % 2 ^ 64)
      + ((b3 <<< 32) % 2 ^ 64) + ((b4 <<< 24) % 2 ^ 64) + ((b5 <<< 16) % 2 ^ 64)
      + ((b6 <<< 8) % 2 ^ 64) + (b7 % 2 ^ 64)) % 2 ^ 64
    = b0 * 256 ^ 7 + b1 * 256 ^ 6 + b2 * 256 ^ 5 + b3 * 256 ^ 4 + b4 * 256 ^ 3
      + b5 * 256 ^ 2 + b6 * 256 ^ 1 + b7 * 256 ^ 0 := by
  simp only [Nat.shiftLeft_eq]
  norm_num
  omega

/-- The modelled `jdksavdecc_uint64_get` at offset 0 of an EUI-64 is the big-endian value
of its eight bytes; no term and no partial sum wraps around in 64 bits. -/
theorem jdksavdecc_uint64_get_eui64 (e : jdksavdecc_eui64) :
    jdksavdecc_uint64_get e.mem 0 = ∑ i : Fin 8, (e.value i).val * 256 ^ (7 - i.val) := by
  have key := be64_no_wrap (e.value 0).val (e.value 1).val (e.value 2).val (e.value 3).val
    (e.value 4).val (e.value 5).val (e.value 6).val (e.value 7).val
    (e.value 0).isLt (e.value 1).isLt (e.value 2).isLt (e.value 3).isLt
    (e.value 4).isLt (e.value 5).isLt (e.value 6).isLt (e.value 7).isLt
  rw [Fin.sum_univ_eight]
  exact key

/-- An index below the count addresses an entry of the clock sources list. -/
theorem clock_sources_get_eq (d : clock_domain_descriptor) (i : Nat)
    (h : i < d.get_clock_sources_count) :
    d.get_clock_source_by_index i = .ok (d.clock_sources.get ⟨i, h⟩) := by
  unfold clock_domain_descriptor.get_clock_source_by_index
  rw [dif_pos h]

/-- Every entry of the clock sources list is enumerated by `get_clock_source_by_index`
at some index below the count. -/
theorem clock_sources_mem_enumerated (d : clock_domain_descriptor) (v : Nat)
    (hv : v ∈ d.clock_sources) :
    ∃ i, i < d.get_clock_sources_count ∧ d.get_clock_source_by_index i = .ok v := by
  obtain ⟨n, hn⟩ := List.get_of_mem hv
  refine ⟨n.val, n.isLt, ?_⟩
  rw [clock_sources_get_eq d n.val n.isLt]
  exact congrArg Except.ok hn

/-- C1: every getter of an adp object returns exactly the stored field it is named
after (Ethernet type and addresses from `ether_frame`, the header and the scalar ADPDU
fields from `adpdu`, the two reserved fields verbatim), and the result stays the same
when `adp_frame`, `frame_read_returned` and `adpdu_read_returned` are replaced by
arbitrary other values. -/
theorem C1_getters_project_fields (s : adp) (p : List uint8_t) (f a : Int) :
    ((adp.get_ethernet_type s).1 = s.ether_frame.ethertype
      ∧ (adp.get_src_addr s).1 = s.ether_frame.src_address
      ∧ (adp.get_dest_addr s).1 = s.ether_frame.dest_address
      ∧ (adp.get_hdr s).1 = s.adpdu.header
      ∧ (adp.get_entity_capabilities s).1 = s.adpdu.entity_capabilities
      ∧ (adp.get_talker_stream_sources s).1 = s.adpdu.talker_stream_sources
      ∧ (adp.get_talker_capabilities s).1 = s.adpdu.talker_capabilities
      ∧ (adp.get_listener_stream_sinks s).1 = s.adpdu.listener_stream_sinks
      ∧ (adp.get_listener_capabilities s).1 = s.adpdu.listener_capabilities
      ∧ (adp.get_controller_capabilities s).1 = s.adpdu.controller_capabilities
      ∧ (adp.get_available_index s).1 = s.adpdu.available_index
      ∧ (adp.get_gptp_domain_number s).1 = s.adpdu.gptp_domain_number
      ∧ (adp.get_reserved0 s).1 = s.adpdu.reserved0
      ∧ (adp.get_identify_control_index s).1 = s.adpdu.identify_control_index
      ∧ (adp.get_interface_index s).1 = s.adpdu.interface_index
      ∧ (adp.get_reserved1 s).1 = s.adpdu.reserved1)
    ∧ ((adp.get_ethernet_type
          { s with adp_frame := p, frame_read_returned := f, adpdu_read_returned := a }).1
        = (adp.get_ethernet_type s).1
      ∧ (adp.get_src_addr
          { s with adp_frame := p, frame_read_returned := f, adpdu_read_returned := a }).1
        = (adp.get_src_addr s).1
      ∧ (adp.get_dest_addr
          { s with adp_frame := p, frame_read_returned := f, adpdu_read_returned := a }).1
        = (adp.get_dest_addr s).1
      ∧ (adp.get_hdr
          { s with adp_frame := p, frame_read_returned := f, adpdu_read_returned := a }).1
        = (adp.get_hdr s).1
      ∧ (adp.get_entity_capabilities
          { s with adp_frame := p, frame_read_returned := f, adpdu_read_returned := a }).1
        = (adp.get_entity_capabilities s).1
      ∧ (adp.get_talker_stream_sources
          { s with adp_frame := p, frame_read_returned := f, adpdu_read_returned := a }).1
        = (adp.get_talker_stream_sources s).1
      ∧ (adp.get_talker_capabilities
          { s with adp_frame := p, frame_read_returned := f, adpdu_read_returned := a }).1
        = (adp.get_talker_capabilities s).1
      ∧ (adp.get_listener_stream_sinks
          { s with adp_frame := p, frame_read_returned := f, adpdu_read_returned := a }).1
        = (adp.get_listener_stream_sinks s).1
      ∧ (adp.get_listener_capabilities
          { s with adp_frame := p, frame_read_returned := f, adpdu_read_returned := a }).1
        = (adp.get_listener_capabilities s).1
      ∧ (adp.get_controller_capabilities
          { s with adp_frame := p, frame_read_returned := f, adpdu_read_returned := a }).1
        = (adp.get_controller_capabilities s).1
      ∧ (adp.get_available_index
          { s with adp_frame := p, frame_read_returned := f, adpdu_read_returned := a }).1
        = (adp.get_available_index s).1
      ∧ (adp.get_gptp_domain_number
          { s with adp_frame := p, frame_read_returned := f, adpdu_read_returned := a }).1
        = (adp.get_gptp_domain_number s).1
      ∧ (adp.get_reserved0
          { s with adp_frame := p, frame_read_returned := f, adpdu_read_returned := a }).1
        = (adp.get_reserved0 s).1
      ∧ (adp.get_identify_control_index
          { s with adp_frame := p, frame_read_returned := f, adpdu_read_returned := a }).1
        = (adp.get_identify_control_index s).1
      ∧ (adp.get_interface_index
          { s with adp_frame := p, frame_read_returned := f, adpdu_read_returned := a }).1
        = (adp.get_interface_index s).1
      ∧ (adp.get_reserved1
          { s with adp_frame := p, frame_read_returned := f, adpdu_read_returned := a }).1
        = (adp.get_reserved1 s).1) :=
  ⟨⟨rfl, rfl, rfl, rfl, rfl, rfl, rfl, rfl, rfl, rfl, rfl, rfl, rfl, rfl, rfl, rfl⟩,
   ⟨rfl, rfl, rfl, rfl, rfl, rfl, rfl, rfl, rfl, rfl, rfl, rfl, rfl, rfl, rfl, rfl⟩⟩

/-- C3: an ADPDU is never mutated after construction: for every object state `s` and
every public non-static member function other than the constructor and the destructor,
the object state after the call equals `s`, in each of the five fields. -/
theorem C3_getters_do_not_mutate (op : adp_op) (s : adp) :
    op.post s = s
    ∧ (op.post s).ether_frame = s.ether_frame
    ∧ (op.post s).adpdu = s.adpdu
    ∧ (op.post s).adp_frame = s.adp_frame
    ∧ (op.post s).frame_read_returned = s.frame_read_returned
    ∧ (op.post s).adpdu_read_returned = s.adpdu_read_returned := by
  cases op <;> exact ⟨rfl, rfl, rfl, rfl, rfl, rfl⟩

/-- C4: the four 64-bit identifier getters return the network-byte-order value of the
eight stored bytes of their EUI-64 field read at offset 0: the sum over `i` in 0..7 of
`byte[i] * 256^(7-i)`, the first stored byte being the most significant. -/
theorem C4_identifier_getters_big_endian (s : adp) :
    (adp.get_entity_entity_id s).1
        = ∑ i : Fin 8, (s.adpdu.header.entity_id.value i).val * 256 ^ (7 - i.val)
    ∧ (adp.get_entity_model_id s).1
        = ∑ i : Fin 8, (s.adpdu.entity_model_id.value i).val * 256 ^ (7 - i.val)
    ∧ (adp.get_gptp_grandmaster_id s).1
        = ∑ i : Fin 8, (s.adpdu.gptp_grandmaster_id.value i).val * 256 ^ (7 - i.val)
    ∧ (adp.get_association_id s).1
        = ∑ i : Fin 8, (s.adpdu.association_id.value i).val * 256 ^ (7 - i.val) :=
  ⟨jdksavdecc_uint64_get_eui64 _, jdksavdecc_uint64_get_eui64 _,
   jdksavdecc_uint64_get_eui64 _, jdksavdecc_uint64_get_eui64 _⟩

/-- C5: for every clock domain descriptor and every `new_clk_src_index` that is not one
of the values `get_clock_source_by_index i` for `i` below `get_clock_sources_count`,
`send_set_clock_source_cmd` is rejected with `InvalidClockSource`, the engine state is
unchanged and no command frame is transmitted. -/
theorem C5_invalid_clock_source_rejected (d : clock_domain_descriptor) (c : command_engine)
    (notification_id new_clk_src_index : Nat)
    (h : ∀ i, i < d.get_clock_sources_count →
      d.get_clock_source_by_index i ≠ .ok new_clk_src_index) :
    (d.send_set_clock_source_cmd c notification_id new_clk_src_index).1
        = send_status.InvalidClockSource
    ∧ (d.send_set_clock_source_cmd c notification_id new_clk_src_index).2 = c
    ∧ (d.send_set_clock_source_cmd c notification_id new_clk_src_index).2.transmitted
        = c.transmitted := by
  have hnot : ¬ new_clk_src_index ∈ d.clock_sources := by
    intro hmem
    obtain ⟨i, hi, hget⟩ := clock_sources_mem_enumerated d new_clk_src_index hmem
    exact h i hi hget
  unfold clock_domain_descriptor.send_set_clock_source_cmd
  rw [if_pos hnot]
  exact ⟨rfl, rfl, rfl⟩

/-- Witness for C5: in the example clock domain with valid sources `[0, 1, 2]` the
source index 7 is rejected and nothing is transmitted. -/
theorem C5_invalid_clock_source_rejected_witness :
    (example_clock_domain.send_set_clock_source_cmd example_engine 42 7).1
        = send_status.InvalidClockSource
    ∧ (example_clock_domain.send_set_clock_source_cmd example_engine 42 7).2 = example_engine
    ∧ (example_clock_domain.send_set_clock_source_cmd example_engine 42 7).2.transmitted
        = example_engine.transmitted :=
  C5_invalid_clock_source_rejected example_clock_domain example_engine 42 7 (by
    intro i hi
    have hi3 : i < 3 := hi
    interval_cases i <;> simp [clock_domain_descriptor.get_clock_source_by_index,
      clock_domain_descriptor.get_clock_sources_count, example_clock_domain])

/-- C6: `get_clock_source_by_index i` returns the clock source stored at position `i`
when `i` is below `get_clock_sources_count`, and fails with `IndexOutOfRange` for every
`i` at or above the count. -/
theorem C6_clock_source_by_index (d : clock_domain_descriptor) (i : Nat) :
    (i < d.get_clock_sources_count →
      ∃ v, d.clock_sources[i]? = some v ∧ d.get_clock_source_by_index i = .ok v)
    ∧ (d.get_clock_sources_count ≤ i →
      d.get_clock_source_by_index i = .error DescriptorError.IndexOutOfRange) := by
  constructor
  · intro h
    refine ⟨d.clock_sources.get ⟨i, h⟩, ?_, clock_sources_get_eq d i h⟩
    exact List.getElem?_eq_getElem h
  · intro h
    unfold clock_domain_descriptor.get_clock_source_by_index
    rw [dif_neg (Nat.not_lt.mpr h)]

/-- Witness for C6: in the example clock domain index 1 yields a stored source and
index 5 fails with `IndexOutOfRange`. -/
theorem C6_clock_source_by_index_witness :
    (∃ v, example_clock_domain.clock_sources[1]? = some v
        ∧ example_clock_domain.get_clock_source_by_index 1 = .ok v)
    ∧ example_clock_domain.get_clock_source_by_index 5
        = .error DescriptorError.IndexOutOfRange :=
  ⟨(C6_clock_source_by_index example_clock_domain 1).1 (by decide),
   (C6_clock_source_by_index example_clock_domain 5).2 (by decide)⟩

/-- C7: decoding a buffer whose length is below `ETHER_HDR_SIZE` fails with
`TruncatedFrame`, whatever the bytes, the expected ethertype and the PDU parser are; no
adp object is produced. -/
theorem C7_truncated_frame_rejected (avtp_ethertype : Nat)
    (parse_adpdu : jdksavdecc_frame → Except FormatError jdksavdecc_adpdu)
    (frame : List uint8_t) (frame_len : Nat) (h : frame_len < ETHER_HDR_SIZE) :
    adp.new avtp_ethertype parse_adpdu frame frame_len = .error FormatError.TruncatedFrame := by
  unfold adp.new
  rw [if_pos h]

/-- Witness for C7: a buffer of thirteen bytes is rejected with `TruncatedFrame`. -/
theorem C7_truncated_frame_rejected_witness :
    13 < ETHER_HDR_SIZE
    ∧ adp.new 0x22f0 (fun _ => .error FormatError.MalformedPdu) example_short_frame 13
        = .error FormatError.TruncatedFrame :=
  ⟨by decide,
   C7_truncated_frame_rejected 0x22f0 (fun _ => .error FormatError.MalformedPdu)
     example_short_frame 13 (by decide)⟩

/-- C10: the Ethernet header size is the sum of its parts, two 48-bit hardware
addresses and a 16-bit ethertype, 6 + 6 + 2 = 14 bytes; the protocol header that follows
is 4 bytes, so Ethernet header plus protocol header are the first 18 bytes. -/
theorem C10_header_sizes :
    ETHER_HDR_SIZE = DEST_MAC_SIZE + SRC_MAC_SIZE + ETHER_PROTOCOL_SIZE
    ∧ DEST_MAC_SIZE = 6 ∧ SRC_MAC_SIZE = 6 ∧ ETHER_PROTOCOL_SIZE = 2
    ∧ 8 * DEST_MAC_SIZE = 48 ∧ 8 * SRC_MAC_SIZE = 48 ∧ 8 * ETHER_PROTOCOL_SIZE = 16
    ∧ ETHER_HDR_SIZE = 14
    ∧ PROTOCOL_HDR_SIZE = 4
    ∧ ETHER_HDR_SIZE + PROTOCOL_HDR_SIZE = 18 := by
  decide

end avdecc_lib

/-- C8: at the constructor arguments `match_min = 2`, `match_max = 3` the object reports
`get_match_min() = true`, which is 1 as an integer and not 2, while `get_match_max()`
reports 3; no object state at all reports 2, since the getter and the member are
`bool`. -/
theorem C8_match_min_stored_as_bool :
    (cli_argument.new "count" "number of values" "" 2 3).get_match_min = true
    ∧ bool_to_int (cli_argument.new "count" "number of values" "" 2 3).get_match_min = 1
    ∧ bool_to_int (cli_argument.new "count" "number of values" "" 2 3).get_match_min ≠ 2
    ∧ (cli_argument.new "count" "number of values" "" 2 3).get_match_max = 3
    ∧ ∀ a : cli_argument, bool_to_int a.get_match_min ≠ 2 := by
  refine ⟨by decide, by decide, by decide, by decide, ?_⟩
  intro a
  cases h : a.get_match_min <;> simp [bool_to_int]

/-- C9: each of the three concrete argument classes, constructed with only name and
help and optionally a hint, uses `match_min = 1` and `match_max = 1`; the object built
is the one built with 1 and 1 passed explicitly and reports a minimum of `true` (1) and
a maximum of 1. -/
theorem C9_arguments_match_once_by_default (name help : String) (hint : Option String) :
    ((cli_argument_int.args name help hint none none).match_min = 1
      ∧ (cli_argument_int.args name help hint none none).match_max = 1
      ∧ (cli_argument_int.new name help hint none none).tocli_argument
          = cli_argument.new name help (hint.getD "") 1 1
      ∧ bool_to_int (cli_argument_int.new name help hint none none).get_match_min = 1
      ∧ (cli_argument_int.new name help hint none none).get_match_max = 1)
    ∧ ((cli_argument_end_station.args name help hint none none).match_min = 1
      ∧ (cli_argument_end_station.args name help hint none none).match_max = 1
      ∧ (cli_argument_end_station.new name help hint none none).tocli_argument
          = cli_argument.new name help (hint.getD "") 1 1
      ∧ bool_to_int (cli_argument_end_station.new name help hint none none).get_match_min = 1
      ∧ (cli_argument_end_station.new name help hint none none).get_match_max = 1)
    ∧ ((cli_argument_string.args name help hint none none).match_min = 1
      ∧ (cli_argument_string.args name help hint none none).match_max = 1
      ∧ (cli_argument_string.new name help hint none none).tocli_argument
          = cli_argument.new name help (hint.getD "") 1 1
      ∧ bool_to_int (cli_argument_string.new name help hint none none).get_match_min = 1
      ∧ (cli_argument_string.new name help hint none none).get_match_max = 1) :=
  ⟨⟨rfl, rfl, rfl, rfl, rfl⟩, ⟨rfl, rfl, rfl, rfl, rfl⟩, ⟨rfl, rfl, rfl, rfl, rfl⟩⟩
